import Mathlib

/-!
Shallow embedding of the booking/availability engine of the hotel-management
backend (`backend/services/bookingService.js`).

Conventions of the embedding:
* Dates are integer timestamps in milliseconds since the epoch (JS `Date`
  values compare and subtract as their millisecond values).
* Booking statuses are stored as strings, as in the database.
* The shared relational store becomes an explicit `Store` value threaded
  through the operations; a Sequelize query becomes a scan over the list of
  persisted rows.
* A thrown service error becomes `Except.error` with the error kind the
  message denotes (room/booking missing → `notFound`, unavailable room or
  cancellation after check-in → `conflict`, bad date range or status value →
  `validation`, access denied → `forbidden`).
-/

namespace BookingService

/-- A room row: identifier and nightly price (`Room.findByPk` exposes both). -/
structure Room where
  id : Nat
  price : Int
deriving DecidableEq

/-- A booking row.  `RoomId`/`UserId` are the Sequelize foreign keys.
Modelled from the spec: the Booking model file itself is not in the sources;
its fields are §3 of the spec (identifier, room reference, owning-user
reference, check-in, check-out, total price, status, creation timestamp). -/
structure Booking where
  id : Nat
  RoomId : Nat
  UserId : Nat
  checkIn : Int
  checkOut : Int
  totalPrice : Int
  status : String
  createdAt : Int
deriving DecidableEq

/-- The persisted state: the room catalog, the booking rows, and the next
primary key handed out by the database on insert. -/
structure Store where
  rooms : List Room
  bookings : List Booking
  nextId : Nat
deriving DecidableEq

/-- The error kinds of §7, one per throw site of the service. -/
inductive ServiceError where
  | notFound
  | conflict
  | validation
  | forbidden
deriving DecidableEq

/-- One day in milliseconds, the divisor `1000 * 60 * 60 * 24` of
`calculateTotalPrice`. -/
def msPerDay : Int := 1000 * 60 * 60 * 24

/-- `Math.ceil (n / d)` for a positive integer divisor `d`, computed exactly
on integers: the ceiling of the rational `n / d`. -/
def ceilDiv (n d : Int) : Int := -((-n) / d)

/-- `calculateTotalPrice(pricePerNight, checkIn, checkOut)`:
`daysCount = Math.ceil((checkOut - checkIn) / (1000*60*60*24))`,
result `pricePerNight * daysCount`. -/
def calculateTotalPrice (pricePerNight checkIn checkOut : Int) : Int :=
  pricePerNight * ceilDiv (checkOut - checkIn) msPerDay

/-- The `where` clause of the `Booking.findOne` query inside
`checkRoomAvailability`: same room, status in {pending, confirmed}, and one of
the three `Op.or` branches (SQL `BETWEEN` is inclusive at both ends):
the existing booking starts inside `[checkIn, checkOut]`, ends inside
`[checkIn, checkOut]`, or contains the requested period. -/
def conflictsWith (b : Booking) (roomId : Nat) (checkInDate checkOutDate : Int) : Prop :=
  b.RoomId = roomId ∧
  (b.status = "pending" ∨ b.status = "confirmed") ∧
  ((checkInDate ≤ b.checkIn ∧ b.checkIn ≤ checkOutDate) ∨
   (checkInDate ≤ b.checkOut ∧ b.checkOut ≤ checkOutDate) ∨
   (b.checkIn ≤ checkInDate ∧ checkOutDate ≤ b.checkOut))

instance (b : Booking) (roomId : Nat) (cI cO : Int) :
    Decidable (conflictsWith b roomId cI cO) := by
  unfold conflictsWith; infer_instance

/-- `checkRoomAvailability(roomId, checkIn, checkOut)`: throws `validation`
when `checkIn >= checkOut`; otherwise `findOne` scans for a conflicting
booking and the result is `true` iff none is found. -/
def checkRoomAvailability (bookings : List Booking) (roomId : Nat)
    (checkIn checkOut : Int) : Except ServiceError Bool :=
  if checkIn ≥ checkOut then
    .error .validation
  else
    (bookings.find? fun b => decide (conflictsWith b roomId checkIn checkOut)).isNone
    |> .ok

/-- The client-supplied request body for `createBooking`.  `roomId`,
`checkIn`, `checkOut` are the fields the service reads; `UserId`, `status`
and `totalPrice` model fields a client may also have included in the body.
In `Booking.create({...bookingData, UserId: userId, totalPrice, status:
'pending'})` the explicit keys come after the spread, so the supplied values
of these three fields are always overwritten. -/
structure BookingData where
  roomId : Nat
  checkIn : Int
  checkOut : Int
  UserId : Option Nat := none
  status : Option String := none
  totalPrice : Option Int := none
deriving DecidableEq

/-- `Room.findByPk(roomId)` over the room catalog. -/
def findRoom (rooms : List Room) (roomId : Nat) : Option Room :=
  rooms.find? fun r => r.id == roomId

/-- `Booking.findByPk(id)` over the booking rows. -/
def findBooking (bookings : List Booking) (id : Nat) : Option Booking :=
  bookings.find? fun b => b.id == id

/-- `createBooking(bookingData, userId)`: room lookup (`notFound` if absent),
availability check (propagating its `validation` error, `conflict` if
unavailable), price computation, then insert of one new row with
`UserId = userId`, the computed `totalPrice` and status `pending`.
`now` is the wall clock the database stamps into `createdAt`. -/
def createBooking (store : Store) (bookingData : BookingData) (userId : Nat)
    (now : Int) : Except ServiceError (Booking × Store) :=
  match findRoom store.rooms bookingData.roomId with
  | none => .error .notFound
  | some room =>
    match checkRoomAvailability store.bookings bookingData.roomId
        bookingData.checkIn bookingData.checkOut with
    | .error e => .error e
    | .ok isAvailable =>
      if !isAvailable then
        .error .conflict
      else
        let totalPrice := calculateTotalPrice room.price
          bookingData.checkIn bookingData.checkOut
        let booking : Booking :=
          { id := store.nextId
            RoomId := bookingData.roomId
            UserId := userId
            checkIn := bookingData.checkIn
            checkOut := bookingData.checkOut
            totalPrice := totalPrice
            status := "pending"
            createdAt := now }
        .ok (booking,
          { store with
              bookings := store.bookings ++ [booking]
              nextId := store.nextId + 1 })

/-- `getBookingById(id, userId, userRole)`: `notFound` if absent, `forbidden`
unless the requester owns the booking or has role admin or manager. -/
def getBookingById (store : Store) (id userId : Nat) (userRole : String) :
    Except ServiceError Booking :=
  match findBooking store.bookings id with
  | none => .error .notFound
  | some booking =>
    if booking.UserId ≠ userId ∧ userRole ≠ "admin" ∧ userRole ≠ "manager" then
      .error .forbidden
    else
      .ok booking

/-- `booking.update({ status })` as seen through the store: the row with the
given primary key gets the new status, every other row is untouched. -/
def setStatus (bookings : List Booking) (id : Nat) (status : String) :
    List Booking :=
  bookings.map fun b => if b.id = id then { b with status := status } else b

/-- `cancelBooking(id, userId, userRole)`: `notFound` if absent, the same
ownership/role check as `getBookingById` (`forbidden`), `conflict` when the
wall clock `now` is past the booking's check-in
(`new Date() > new Date(booking.checkIn)`), otherwise the status becomes
`canceled`. -/
def cancelBooking (store : Store) (id userId : Nat) (userRole : String)
    (now : Int) : Except ServiceError (Booking × Store) :=
  match findBooking store.bookings id with
  | none => .error .notFound
  | some booking =>
    if booking.UserId ≠ userId ∧ userRole ≠ "admin" ∧ userRole ≠ "manager" then
      .error .forbidden
    else if booking.checkIn < now then
      .error .conflict
    else
      .ok ({ booking with status := "canceled" },
        { store with bookings := setStatus store.bookings id "canceled" })

/-- The `allowedStatuses` array of `updateBookingStatus`. -/
def allowedStatuses : List String :=
  ["pending", "confirmed", "canceled", "completed"]

/-- `updateBookingStatus(id, status)`: `notFound` if absent, `validation`
when the status string is outside `allowedStatuses`, otherwise the status is
overwritten unconditionally. -/
def updateBookingStatus (store : Store) (id : Nat) (status : String) :
    Except ServiceError (Booking × Store) :=
  match findBooking store.bookings id with
  | none => .error .notFound
  | some booking =>
    if status ∉ allowedStatuses then
      .error .validation
    else
      .ok ({ booking with status := status },
        { store with bookings := setStatus store.bookings id status })

/-- A booking counts for conflict purposes iff its status is pending or
confirmed (§ Glossary, "active booking"). -/
def Booking.isActive (b : Booking) : Prop :=
  b.status = "pending" ∨ b.status = "confirmed"

instance (b : Booking) : Decidable b.isActive := by
  unfold Booking.isActive; infer_instance

/-- Two half-open date intervals `[checkIn, checkOut)` intersect. -/
def overlaps (a b : Booking) : Prop :=
  a.checkIn < b.checkOut ∧ b.checkIn < a.checkOut

instance (a b : Booking) : Decidable (overlaps a b) := by
  unfold overlaps; infer_instance

/-- Two booking rows may legally coexist: if they are on the same room and
both active, their `[checkIn, checkOut)` intervals do not overlap. -/
def compatible (a b : Booking) : Prop :=
  a.RoomId = b.RoomId → a.isActive → b.isActive → ¬ overlaps a b

instance (a b : Booking) : Decidable (compatible a b) := by
  unfold compatible; infer_instance

/-- The §3 invariant: no two active bookings for the same room have
overlapping `[checkIn, checkOut)` intervals. -/
def noOverlap (bookings : List Booking) : Prop :=
  bookings.Pairwise compatible

instance (bookings : List Booking) : Decidable (noOverlap bookings) := by
  unfold noOverlap; infer_instance

/-- A store satisfying the no-overlap invariant: room 1 carries a canceled
booking and a pending booking on the same date interval `[100, 200)`.  Only
the pending one is active, so the pair is legal. -/
def cexStore : Store :=
  { rooms := [⟨1, 100⟩]
    bookings :=
      [⟨0, 1, 7, 100, 200, 100, "canceled", 0⟩,
       ⟨1, 1, 7, 100, 200, 100, "pending", 0⟩]
    nextId := 2 }

/-! Helper lemmas about the availability check and store updates. -/

lemma checkRoomAvailability_ok_true_iff {bookings : List Booking} {roomId : Nat}
    {checkIn checkOut : Int} (h : checkIn < checkOut) :
    checkRoomAvailability bookings roomId checkIn checkOut = .ok true ↔
      ∀ b ∈ bookings, ¬ conflictsWith b roomId checkIn checkOut := by
  unfold checkRoomAvailability
  rw [if_neg (not_le.mpr h)]
  simp [Option.isNone_iff_eq_none, List.find?_eq_none]

lemma checkRoomAvailability_ok_false {bookings : List Booking} {roomId : Nat}
    {checkIn checkOut : Int} (h : checkIn < checkOut) (b : Booking)
    (hb : b ∈ bookings) (hc : conflictsWith b roomId checkIn checkOut) :
    checkRoomAvailability bookings roomId checkIn checkOut = .ok false := by
  unfold checkRoomAvailability
  rw [if_neg (not_le.mpr h)]
  cases hfind : bookings.find? fun x => decide (conflictsWith x roomId checkIn checkOut) with
  | some v => simp
  | none =>
    rw [List.find?_eq_none] at hfind
    exact absurd hc (by simpa using hfind b hb)

lemma checkRoomAvailability_ok_dates {bookings : List Booking} {roomId : Nat}
    {checkIn checkOut : Int} {v : Bool}
    (h : checkRoomAvailability bookings roomId checkIn checkOut = .ok v) :
    checkIn < checkOut := by
  unfold checkRoomAvailability at h
  by_cases hd : checkIn ≥ checkOut
  · rw [if_pos hd] at h
    exact absurd h (by simp)
  · omega

lemma createBooking_ok_inv {store : Store} {bookingData : BookingData}
    {userId : Nat} {now : Int} {booking : Booking} {store' : Store}
    (h : createBooking store bookingData userId now = .ok (booking, store')) :
    ∃ room, findRoom store.rooms bookingData.roomId = some room ∧
      checkRoomAvailability store.bookings bookingData.roomId
        bookingData.checkIn bookingData.checkOut = .ok true ∧
      booking =
        { id := store.nextId
          RoomId := bookingData.roomId
          UserId := userId
          checkIn := bookingData.checkIn
          checkOut := bookingData.checkOut
          totalPrice := calculateTotalPrice room.price
            bookingData.checkIn bookingData.checkOut
          status := "pending"
          createdAt := now } ∧
      store' =
        { store with
            bookings := store.bookings ++ [booking]
            nextId := store.nextId + 1 } := by
  unfold createBooking at h
  cases hroom : findRoom store.rooms bookingData.roomId with
  | none => rw [hroom] at h; exact absurd h (by simp)
  | some room =>
    rw [hroom] at h
    cases havail : checkRoomAvailability store.bookings bookingData.roomId
        bookingData.checkIn bookingData.checkOut with
    | error e => rw [havail] at h; exact absurd h (by simp)
    | ok isAvailable =>
      rw [havail] at h
      cases isAvailable with
      | false => exact absurd h (by simp)
      | true =>
        simp only [Bool.not_true, Bool.false_eq_true, if_false,
          Except.ok.injEq, Prod.mk.injEq] at h
        exact ⟨room, rfl, rfl, h.1.symm, by rw [← h.1]; exact h.2.symm⟩

lemma cancelBooking_ok_inv {store : Store} {id userId : Nat}
    {userRole : String} {now : Int} {booking : Booking} {store' : Store}
    (h : cancelBooking store id userId userRole now = .ok (booking, store')) :
    store'.bookings = setStatus store.bookings id "canceled" := by
  unfold cancelBooking at h
  cases hfind : findBooking store.bookings id with
  | none => simp [hfind] at h
  | some b =>
    simp only [hfind] at h
    by_cases hA : b.UserId ≠ userId ∧ userRole ≠ "admin" ∧ userRole ≠ "manager"
    · rw [if_pos hA] at h
      exact absurd h (by simp)
    · rw [if_neg hA] at h
      by_cases ht : b.checkIn < now
      · rw [if_pos ht] at h
        exact absurd h (by simp)
      · rw [if_neg ht] at h
        simp only [Except.ok.injEq, Prod.mk.injEq] at h
        rw [← h.2]

lemma noOverlap_append_new {bookings : List Booking} {newB : Booking}
    (hno : noOverlap bookings)
    (hvalid : newB.checkIn < newB.checkOut)
    (hfree : ∀ b ∈ bookings,
      ¬ conflictsWith b newB.RoomId newB.checkIn newB.checkOut) :
    noOverlap (bookings ++ [newB]) := by
  unfold noOverlap at hno ⊢
  rw [List.pairwise_append]
  refine ⟨hno, List.pairwise_singleton _ _, ?_⟩
  intro a ha b hb
  rw [List.mem_singleton] at hb
  subst hb
  intro hroom hactA hactB hov
  rcases hov with ⟨h1, h2⟩
  exact hfree a ha ⟨hroom, hactA, by omega⟩

lemma compatible_setCanceled {id : Nat} {a b : Booking}
    (hab : compatible a b) :
    compatible (if a.id = id then { a with status := "canceled" } else a)
      (if b.id = id then { b with status := "canceled" } else b) := by
  unfold compatible Booking.isActive overlaps at hab ⊢
  split
  · split
    · intro h1 h2 h3
      rcases h2 with h | h <;> simp at h
    · intro h1 h2 h3
      rcases h2 with h | h <;> simp at h
  · split
    · intro h1 h2 h3
      rcases h3 with h | h <;> simp at h
    · exact hab

lemma setStatus_canceled_noOverlap {bookings : List Booking} {id : Nat}
    (hno : noOverlap bookings) :
    noOverlap (setStatus bookings id "canceled") := by
  unfold noOverlap at hno ⊢
  unfold setStatus
  rw [List.pairwise_map]
  exact hno.imp fun hab => compatible_setCanceled hab

/-! Claim theorems and their witnesses. -/

/-- C1: when the store holds a booking on the requested room with status
pending or confirmed whose interval meets the requested `[checkIn, checkOut)`
under the inclusive-boundary rule (it starts in `[checkIn, checkOut]`, ends
in `[checkIn, checkOut]` — including an existing `checkOut` equal to the
requested `checkIn` — or contains the requested interval), `createBooking`
fails with Conflict; an `Except.error` result carries no updated store, so no
new booking is persisted. -/
theorem C1_createBooking_conflict (store : Store) (bookingData : BookingData)
    (userId : Nat) (now : Int) (room : Room) (b : Booking)
    (hroom : findRoom store.rooms bookingData.roomId = some room)
    (hdates : bookingData.checkIn < bookingData.checkOut)
    (hb : b ∈ store.bookings)
    (hR : b.RoomId = bookingData.roomId)
    (hactive : b.status = "pending" ∨ b.status = "confirmed")
    (hoverlap :
      (bookingData.checkIn ≤ b.checkIn ∧ b.checkIn ≤ bookingData.checkOut) ∨
      (bookingData.checkIn ≤ b.checkOut ∧ b.checkOut ≤ bookingData.checkOut) ∨
      (b.checkIn ≤ bookingData.checkIn ∧ bookingData.checkOut ≤ b.checkOut)) :
    createBooking store bookingData userId now = .error .conflict := by
  have havail := checkRoomAvailability_ok_false hdates b hb ⟨hR, hactive, hoverlap⟩
  unfold createBooking
  rw [hroom, havail]
  simp

/-- C1 witness: a confirmed booking on days `[100, 200)` of room 1 blocks a
request for `[200, 300)` on room 1 — the back-to-back edge case where the
existing check-out equals the requested check-in. -/
theorem C1_createBooking_conflict_witness :
    createBooking ⟨[⟨1, 100⟩], [⟨0, 1, 7, 100, 200, 100, "confirmed", 0⟩], 1⟩
      ⟨1, 200, 300, none, none, none⟩ 9 0 = .error .conflict :=
  C1_createBooking_conflict _ _ 9 0 ⟨1, 100⟩
    ⟨0, 1, 7, 100, 200, 100, "confirmed", 0⟩
    (by decide) (by decide) (by decide) rfl (Or.inr rfl)
    (Or.inr (Or.inl (by decide)))

/-- C4: `createBooking` performs its steps in order — NotFound when the room
is absent; otherwise Conflict when the availability check reports the room
unavailable; otherwise it persists exactly one new booking with status
pending, owner equal to the requesting user, and total price equal to the
nightly price times the ceiling of the stay length in days, returning that
booking. -/
theorem C4_createBooking_steps (store : Store) (bookingData : BookingData)
    (userId : Nat) (now : Int) :
    (findRoom store.rooms bookingData.roomId = none →
      createBooking store bookingData userId now = .error .notFound) ∧
    (∀ room, findRoom store.rooms bookingData.roomId = some room →
      checkRoomAvailability store.bookings bookingData.roomId
          bookingData.checkIn bookingData.checkOut = .ok false →
      createBooking store bookingData userId now = .error .conflict) ∧
    (∀ room, findRoom store.rooms bookingData.roomId = some room →
      checkRoomAvailability store.bookings bookingData.roomId
          bookingData.checkIn bookingData.checkOut = .ok true →
      createBooking store bookingData userId now =
        .ok
          ({ id := store.nextId
             RoomId := bookingData.roomId
             UserId := userId
             checkIn := bookingData.checkIn
             checkOut := bookingData.checkOut
             totalPrice := room.price *
               ceilDiv (bookingData.checkOut - bookingData.checkIn) msPerDay
             status := "pending"
             createdAt := now },
           { store with
               bookings := store.bookings ++
                 [{ id := store.nextId
                    RoomId := bookingData.roomId
                    UserId := userId
                    checkIn := bookingData.checkIn
                    checkOut := bookingData.checkOut
                    totalPrice := room.price *
                      ceilDiv (bookingData.checkOut - bookingData.checkIn) msPerDay
                    status := "pending"
                    createdAt := now }]
               nextId := store.nextId + 1 })) := by
  refine ⟨fun hnone => ?_, fun room hroom hfalse => ?_, fun room hroom htrue => ?_⟩
  · unfold createBooking
    rw [hnone]
  · unfold createBooking
    rw [hroom, hfalse]
    simp
  · unfold createBooking
    rw [hroom, htrue]
    simp [calculateTotalPrice]

/-- C4 witness: creating a booking for one whole day on an existing free room
persists exactly one pending booking owned by the requester at the nightly
price. -/
theorem C4_createBooking_steps_witness :
    createBooking ⟨[⟨1, 100⟩], [], 0⟩ ⟨1, 0, 86400000, none, none, none⟩ 7 5 =
      .ok (⟨0, 1, 7, 0, 86400000, 100 * ceilDiv (86400000 - 0) msPerDay, "pending", 5⟩,
        ⟨[⟨1, 100⟩],
         [⟨0, 1, 7, 0, 86400000, 100 * ceilDiv (86400000 - 0) msPerDay, "pending", 5⟩],
         1⟩) :=
  (C4_createBooking_steps ⟨[⟨1, 100⟩], [], 0⟩ ⟨1, 0, 86400000, none, none, none⟩
      7 5).2.2 ⟨1, 100⟩ (by decide) rfl

/-- C5: `checkRoomAvailability` raises a Validation error if and only if
`checkIn ≥ checkOut`; when `checkIn < checkOut` it never raises Validation,
regardless of whether callers validated the dates beforehand (the check takes
no input from its callers other than the dates themselves). -/
theorem C5_availability_validation (bookings : List Booking) (roomId : Nat)
    (checkIn checkOut : Int) :
    (checkRoomAvailability bookings roomId checkIn checkOut =
        .error .validation ↔ checkIn ≥ checkOut) ∧
    (checkIn < checkOut →
      checkRoomAvailability bookings roomId checkIn checkOut ≠
        .error .validation) := by
  unfold checkRoomAvailability
  by_cases h : checkIn ≥ checkOut
  · rw [if_pos h]
    exact ⟨⟨fun _ => h, fun _ => rfl⟩, fun hlt => absurd h (by omega)⟩
  · rw [if_neg h]
    exact ⟨⟨fun hk => absurd hk (by simp), fun hk => absurd hk h⟩,
      fun _ => by simp⟩

/-- C5 witness: on concrete dates with `checkIn < checkOut` the check does
not raise Validation. -/
theorem C5_availability_validation_witness :
    checkRoomAvailability [] 1 0 86400000 ≠ .error .validation :=
  (C5_availability_validation [] 1 0 86400000).2 (by decide)

/-- C6: `calculateTotalPrice` is the pure function
`pricePerNight × ceiling((checkOut − checkIn) in whole days)` — characterised
implementation-independently by the ceiling bounds — and on the spec's
concrete inputs: 3 whole days at 100 cost 300, and half a day at 100 costs
100 (partial days round up). -/
theorem C6_calculateTotalPrice_ceiling :
    (∀ pricePerNight checkIn checkOut days : Int,
        msPerDay * (days - 1) < checkOut - checkIn →
        checkOut - checkIn ≤ msPerDay * days →
        calculateTotalPrice pricePerNight checkIn checkOut =
          pricePerNight * days) ∧
    calculateTotalPrice 100 0 (3 * msPerDay) = 300 ∧
    calculateTotalPrice 100 0 (msPerDay / 2) = 100 := by
  refine ⟨fun pricePerNight checkIn checkOut days h1 h2 => ?_, by decide, by decide⟩
  have hd : ceilDiv (checkOut - checkIn) msPerDay = days := by
    unfold msPerDay at h1 h2
    unfold ceilDiv msPerDay
    omega
  unfold calculateTotalPrice
  rw [hd]

/-- C6 witness: the ceiling characterisation applied at a concrete partial
day (100000000 ms is between 1 and 2 whole days, so 2 days are billed). -/
theorem C6_calculateTotalPrice_ceiling_witness :
    calculateTotalPrice 7 0 100000000 = 7 * 2 :=
  C6_calculateTotalPrice_ceiling.1 7 0 100000000 2 (by decide) (by decide)

/-- C3: for a valid date range, `checkRoomAvailability` returns true iff no
booking on the room with status pending or confirmed starts inside
`[checkIn, checkOut]`, ends inside `[checkIn, checkOut]` (both inclusive at
both ends), or contains the requested interval; and a booking whose status is
neither pending nor confirmed (canceled, completed) never affects the
result. -/
theorem C3_availability_spec (bookings : List Booking) (roomId : Nat)
    (checkIn checkOut : Int) (h : checkIn < checkOut) :
    (checkRoomAvailability bookings roomId checkIn checkOut = .ok true ↔
      ∀ b ∈ bookings, ¬ (b.RoomId = roomId ∧
        (b.status = "pending" ∨ b.status = "confirmed") ∧
        ((checkIn ≤ b.checkIn ∧ b.checkIn ≤ checkOut) ∨
         (checkIn ≤ b.checkOut ∧ b.checkOut ≤ checkOut) ∨
         (b.checkIn ≤ checkIn ∧ checkOut ≤ b.checkOut)))) ∧
    (∀ b : Booking, b.status ≠ "pending" → b.status ≠ "confirmed" →
      checkRoomAvailability (b :: bookings) roomId checkIn checkOut =
        checkRoomAvailability bookings roomId checkIn checkOut) := by
  constructor
  · exact checkRoomAvailability_ok_true_iff h
  · intro b hp hc
    have hnc : ¬ conflictsWith b roomId checkIn checkOut := by
      intro hconf
      rcases hconf.2.1 with hs | hs
      · exact hp hs
      · exact hc hs
    unfold checkRoomAvailability
    rw [if_neg (not_le.mpr h), if_neg (not_le.mpr h)]
    simp [List.find?_cons, hnc]

/-- C7: for an existing booking and an authorized caller (owner, admin or
manager), `cancelBooking` fails with Conflict when the wall clock is past the
booking's check-in; when check-in is in the future it succeeds, sets the
status to `canceled`, and changes no other field of the booking. -/
theorem C7_cancelBooking_window (store : Store) (id userId : Nat)
    (userRole : String) (now : Int) (booking : Booking)
    (hfind : findBooking store.bookings id = some booking)
    (haccess : booking.UserId = userId ∨ userRole = "admin" ∨
      userRole = "manager") :
    (booking.checkIn < now →
      cancelBooking store id userId userRole now = .error .conflict) ∧
    (now < booking.checkIn →
      cancelBooking store id userId userRole now =
        .ok ({ booking with status := "canceled" },
          { store with bookings := setStatus store.bookings id "canceled" })) := by
  have hA : ¬ (booking.UserId ≠ userId ∧ userRole ≠ "admin" ∧
      userRole ≠ "manager") := by
    rcases haccess with h | h | h
    · exact fun hc => hc.1 h
    · exact fun hc => hc.2.1 h
    · exact fun hc => hc.2.2 h
  unfold cancelBooking
  simp only [hfind]
  rw [if_neg hA]
  constructor
  · intro ht
    rw [if_pos ht]
  · intro ht
    rw [if_neg (by omega)]

/-- C7 witness: the owner cancels a not-yet-started booking; the result has
status `canceled` and every other field as before. -/
theorem C7_cancelBooking_window_witness :
    cancelBooking ⟨[⟨1, 100⟩], [⟨0, 1, 7, 100, 200, 100, "pending", 0⟩], 1⟩
      0 7 "user" 50 =
      .ok (⟨0, 1, 7, 100, 200, 100, "canceled", 0⟩,
        ⟨[⟨1, 100⟩], [⟨0, 1, 7, 100, 200, 100, "canceled", 0⟩], 1⟩) :=
  (C7_cancelBooking_window ⟨[⟨1, 100⟩], [⟨0, 1, 7, 100, 200, 100, "pending", 0⟩], 1⟩
      0 7 "user" 50 ⟨0, 1, 7, 100, 200, 100, "pending", 0⟩
      (by decide) (Or.inl rfl)).2 (by decide)

/-- C8: for an existing booking, both `getBookingById` and `cancelBooking`
fail with Forbidden exactly when the requester is not the owner and the role
is neither admin nor manager; in every other case the access check passes
(and `getBookingById` then returns the booking). -/
theorem C8_access_control (store : Store) (id userId : Nat) (userRole : String)
    (now : Int) (booking : Booking)
    (hfind : findBooking store.bookings id = some booking) :
    (getBookingById store id userId userRole = .error .forbidden ↔
      (booking.UserId ≠ userId ∧ userRole ≠ "admin" ∧ userRole ≠ "manager")) ∧
    (cancelBooking store id userId userRole now = .error .forbidden ↔
      (booking.UserId ≠ userId ∧ userRole ≠ "admin" ∧ userRole ≠ "manager")) ∧
    ((booking.UserId = userId ∨ userRole = "admin" ∨ userRole = "manager") →
      getBookingById store id userId userRole = .ok booking) := by
  unfold getBookingById cancelBooking
  simp only [hfind]
  by_cases hA : booking.UserId ≠ userId ∧ userRole ≠ "admin" ∧
    userRole ≠ "manager"
  · rw [if_pos hA, if_pos hA]
    refine ⟨⟨fun _ => hA, fun _ => rfl⟩, ⟨fun _ => hA, fun _ => rfl⟩,
      fun hpass => ?_⟩
    rcases hpass with h | h | h
    · exact absurd h hA.1
    · exact absurd h hA.2.1
    · exact absurd h hA.2.2
  · rw [if_neg hA, if_neg hA]
    refine ⟨⟨fun hk => absurd hk (by simp), fun hk => absurd hk hA⟩,
      ⟨fun hk => ?_, fun hk => absurd hk hA⟩, fun _ => rfl⟩
    by_cases ht : booking.checkIn < now
    · rw [if_pos ht] at hk
      exact absurd hk (by simp)
    · rw [if_neg ht] at hk
      exact absurd hk (by simp)

/-- C8 witness: a stranger with role `user` is refused the booking of
another user. -/
theorem C8_access_control_witness :
    getBookingById ⟨[⟨1, 100⟩], [⟨0, 1, 7, 100, 200, 100, "pending", 0⟩], 1⟩
      0 9 "user" = .error .forbidden :=
  ((C8_access_control ⟨[⟨1, 100⟩], [⟨0, 1, 7, 100, 200, 100, "pending", 0⟩], 1⟩
      0 9 "user" 0 ⟨0, 1, 7, 100, 200, 100, "pending", 0⟩
      (by decide)).1).mpr (by decide)

/-- C9: `updateBookingStatus` fails with NotFound when the id is absent;
for an existing booking it fails with Validation exactly when the status
string is outside {pending, confirmed, canceled, completed}; and for an
allowed status it overwrites the booking's status unconditionally, whatever
the current status is — there is no illegal-transition rejection. -/
theorem C9_updateBookingStatus_spec (store : Store) (id : Nat)
    (status : String) :
    (findBooking store.bookings id = none →
      updateBookingStatus store id status = .error .notFound) ∧
    (∀ booking, findBooking store.bookings id = some booking →
      ((updateBookingStatus store id status = .error .validation ↔
          status ∉ allowedStatuses) ∧
       (status ∈ allowedStatuses →
          updateBookingStatus store id status =
            .ok ({ booking with status := status },
              { store with bookings := setStatus store.bookings id status })))) := by
  refine ⟨fun hnone => ?_, fun booking hfind => ?_⟩
  · unfold updateBookingStatus
    rw [hnone]
  · unfold updateBookingStatus
    simp only [hfind]
    by_cases hs : status ∈ allowedStatuses
    · rw [if_neg (not_not_intro hs)]
      exact ⟨⟨fun hk => absurd hk (by simp), fun hk => absurd hs hk⟩,
        fun _ => rfl⟩
    · rw [if_pos hs]
      exact ⟨⟨fun _ => hs, fun _ => rfl⟩, fun hk => absurd hk hs⟩

/-- C9 witness: a booking currently `completed` is moved back to `pending` —
an arbitrary transition the operation applies without complaint. -/
theorem C9_updateBookingStatus_spec_witness :
    updateBookingStatus ⟨[⟨1, 100⟩], [⟨0, 1, 7, 100, 200, 100, "completed", 0⟩], 1⟩
      0 "pending" =
      .ok (⟨0, 1, 7, 100, 200, 100, "pending", 0⟩,
        ⟨[⟨1, 100⟩], [⟨0, 1, 7, 100, 200, 100, "pending", 0⟩], 1⟩) :=
  ((C9_updateBookingStatus_spec
      ⟨[⟨1, 100⟩], [⟨0, 1, 7, 100, 200, 100, "completed", 0⟩], 1⟩ 0 "pending").2
    ⟨0, 1, 7, 100, 200, 100, "completed", 0⟩ (by decide)).2 (by decide)

/-- C10: the persisted booking's owner, status and total price do not depend
on any `UserId`, `status` or `totalPrice` values supplied inside the request
body — the result of `createBooking` is identical whatever those fields hold
(the explicit keys after the object spread always overwrite them) — and on
success the owner is the requesting user, the status is `pending`, and the
price is the one computed from the room's nightly price. -/
theorem C10_createBooking_ignores_supplied (store : Store)
    (bookingData : BookingData) (userId : Nat) (now : Int)
    (u : Option Nat) (s : Option String) (t : Option Int) :
    (createBooking store
        { bookingData with UserId := u, status := s, totalPrice := t }
        userId now =
      createBooking store bookingData userId now) ∧
    (∀ booking store',
      createBooking store bookingData userId now = .ok (booking, store') →
      booking.UserId = userId ∧ booking.status = "pending" ∧
      ∃ room, findRoom store.rooms bookingData.roomId = some room ∧
        booking.totalPrice =
          calculateTotalPrice room.price bookingData.checkIn
            bookingData.checkOut) := by
  constructor
  · rfl
  · intro booking store' h
    obtain ⟨room, hroom, _, hbk, _⟩ := createBooking_ok_inv h
    exact ⟨by rw [hbk], by rw [hbk], room, hroom, by rw [hbk]⟩

/-- C10 witness: a request body smuggling `UserId = 99`, a `confirmed`
status and a 1-ruble price still yields a pending booking owned by user 7 at
the room's computed price. -/
theorem C10_createBooking_ignores_supplied_witness :
    (⟨0, 1, 7, 0, 86400000, calculateTotalPrice 100 0 86400000, "pending", 5⟩
        : Booking).UserId = 7 ∧
    (⟨0, 1, 7, 0, 86400000, calculateTotalPrice 100 0 86400000, "pending", 5⟩
        : Booking).status = "pending" ∧
    ∃ room, findRoom [⟨1, 100⟩] 1 = some room ∧
      (⟨0, 1, 7, 0, 86400000, calculateTotalPrice 100 0 86400000, "pending", 5⟩
          : Booking).totalPrice = calculateTotalPrice room.price 0 86400000 :=
  (C10_createBooking_ignores_supplied ⟨[⟨1, 100⟩], [], 0⟩
      ⟨1, 0, 86400000, none, none, none⟩ 7 5
      (some 99) (some "confirmed") (some 1)).2 _ _ rfl

/-- C3 witness: on a concrete room, valid interval and a store holding one
canceled booking on the same interval, the check reports available. -/
theorem C3_availability_spec_witness :
    checkRoomAvailability [⟨0, 1, 7, 0, 86400000, 100, "canceled", 0⟩]
      1 0 86400000 = .ok true :=
  (C3_availability_spec [⟨0, 1, 7, 0, 86400000, 100, "canceled", 0⟩]
      1 0 86400000 (by decide)).1.mpr (by decide)

/-- C2 (amended): `createBooking` and `cancelBooking` preserve the invariant
that no two pending/confirmed bookings on the same room have overlapping
`[check-in, check-out)` intervals.  (`updateBookingStatus` does not preserve
it — see the counterexample.) -/
theorem C2_create_cancel_preserve_invariant :
    (∀ store bookingData userId now booking store',
        noOverlap store.bookings →
        createBooking store bookingData userId now = .ok (booking, store') →
        noOverlap store'.bookings) ∧
    (∀ store id userId userRole now booking store',
        noOverlap store.bookings →
        cancelBooking store id userId userRole now = .ok (booking, store') →
        noOverlap store'.bookings) := by
  constructor
  · intro store bookingData userId now booking store' hno h
    obtain ⟨room, hroom, havail, hbk, hst⟩ := createBooking_ok_inv h
    have hdates := checkRoomAvailability_ok_dates havail
    have hfree := (checkRoomAvailability_ok_true_iff hdates).mp havail
    subst hbk
    subst hst
    exact noOverlap_append_new hno hdates hfree
  · intro store id userId userRole now booking store' hno h
    rw [cancelBooking_ok_inv h]
    exact setStatus_canceled_noOverlap hno

/-- C2 witness: creating a one-day booking in an empty store yields a store
whose single booking trivially satisfies the invariant. -/
theorem C2_create_cancel_preserve_invariant_witness :
    noOverlap [(⟨0, 1, 7, 0, 86400000, 100, "pending", 5⟩ : Booking)] :=
  C2_create_cancel_preserve_invariant.1 ⟨[⟨1, 100⟩], [], 0⟩
    ⟨1, 0, 86400000, none, none, none⟩ 7 5
    ⟨0, 1, 7, 0, 86400000, 100, "pending", 5⟩
    ⟨[⟨1, 100⟩], [⟨0, 1, 7, 0, 86400000, 100, "pending", 5⟩], 1⟩
    (by decide) rfl

/-- C2 counterexample: `updateBookingStatus` does not preserve the invariant.
`cexStore` satisfies it (its canceled booking is inert), yet setting that
canceled booking — which overlaps the pending one on the same room — to
`confirmed` succeeds and leaves two overlapping active bookings. -/
theorem C2_updateBookingStatus_breaks_invariant :
    noOverlap cexStore.bookings ∧
    updateBookingStatus cexStore 0 "confirmed" =
      .ok (⟨0, 1, 7, 100, 200, 100, "confirmed", 0⟩,
        { cexStore with bookings := setStatus cexStore.bookings 0 "confirmed" }) ∧
    ¬ noOverlap (setStatus cexStore.bookings 0 "confirmed") :=
  ⟨by decide, rfl, by decide⟩

end BookingService
